import Mathlib

/-!
Chat widget (`static/script.js`).

A shallow embedding of the client-side chat widget: the DOM state the script
touches, the three functions `addMessage`, `showLoadingMessage`,
`removeLoadingMessage`, the page-lifetime `sessionId`, the asynchronous
`submit` listener (split at its two `await` points) and the `keydown`
listener, together with an event-driven transition system that interleaves
user events and promise resolutions.

JavaScript strings are modelled by Lean strings (sequences of Unicode scalar
values; lone surrogates are outside the model).
-/

namespace ChatWidget

/-! ## JavaScript values -/

/-- A JavaScript number as far as the script observes it: its truthiness and
its `Number::toString` text.  `int i` is an integer-valued double in the safe
range, which prints in decimal; `other text` stands for every remaining
double (a non-zero fraction, a large magnitude, an infinity), which is
truthy, carried with the text `Number::toString` gives it. -/
inductive JSNumber where
  | int (i : Int)
  | negZero
  | nan
  | other (text : String)
  deriving DecidableEq, Repr

/-- A JavaScript value of the kinds `JSON.parse` produces, plus `undefined`
(the result of reading a missing property). Objects list their own
properties. -/
inductive JSValue where
  | undefined
  | null
  | bool (b : Bool)
  | num (n : JSNumber)
  | str (s : String)
  | arr (items : List JSValue)
  | obj (props : List (String × JSValue))

/-- The exceptions the script can meet. -/
inductive JSError where
  | typeError
  | syntaxError
  | networkError
  | error (message : String)
  deriving DecidableEq, Repr

/-- The characters `String.prototype.trim` strips: ECMAScript WhiteSpace and
LineTerminator code points. -/
def isWhiteSpace (c : Char) : Bool :=
  let n := c.toNat
  n == 0x09 || n == 0x0A || n == 0x0B || n == 0x0C || n == 0x0D || n == 0x20 ||
  n == 0xA0 || n == 0x1680 || (0x2000 ≤ n && n ≤ 0x200A) || n == 0x2028 ||
  n == 0x2029 || n == 0x202F || n == 0x205F || n == 0x3000 || n == 0xFEFF

/-- Strip leading white space. -/
def trimStart (cs : List Char) : List Char :=
  cs.dropWhile isWhiteSpace

/-- Strip trailing white space. -/
def trimEnd (cs : List Char) : List Char :=
  (cs.reverse.dropWhile isWhiteSpace).reverse

/-- The method `String.prototype.trim`. -/
def jsTrim (s : String) : String :=
  String.mk (trimEnd (trimStart s.data))

/-- The operation `Number::toString` (radix 10). -/
def numberToString : JSNumber → String
  | .int i => if i < 0 then "-" ++ Nat.repr i.natAbs else Nat.repr i.toNat
  | .negZero => "0"
  | .nan => "NaN"
  | .other text => text

/-- The abstract operation `ToBoolean`. -/
def toBoolean : JSValue → Bool
  | .undefined => false
  | .null => false
  | .bool b => b
  | .num (.int i) => i != 0
  | .num .negZero => false
  | .num .nan => false
  | .num (.other _) => true
  | .str s => s != ""
  | .arr _ => true
  | .obj _ => true

/-- The text of a plain object under `ToString`: `[object Object]` from
`Object.prototype.toString`, unless an own property `toString` (never
callable in parsed JSON) shadows it, in which case `OrdinaryToPrimitive` ends
in a `TypeError`. -/
def objectToString : List (String × JSValue) → Except JSError String
  | [] => .ok "[object Object]"
  | (k, _) :: rest => if k = "toString" then .error .typeError else objectToString rest

mutual
/-- The abstract operation `ToString`; an array answers through
`Array.prototype.join`. -/
def toStr : JSValue → Except JSError String
  | .undefined => .ok "undefined"
  | .null => .ok "null"
  | .bool b => .ok (if b then "true" else "false")
  | .num n => .ok (numberToString n)
  | .str s => .ok s
  | .arr items => joinItems items
  | .obj props => objectToString props
/-- The method `Array.prototype.join` with the separator `,`. -/
def joinItems : List JSValue → Except JSError String
  | [] => .ok ""
  | x :: rest =>
    match itemStr x with
    | .error e => .error e
    | .ok a =>
      match rest with
      | [] => .ok a
      | _ :: _ =>
        match joinItems rest with
        | .error e => .error e
        | .ok b => .ok (a ++ "," ++ b)
/-- The text of one array element inside `join`: `undefined` and `null`
contribute the empty string, every other element its `ToString`. -/
def itemStr : JSValue → Except JSError String
  | .undefined => .ok ""
  | .null => .ok ""
  | .bool b => .ok (if b then "true" else "false")
  | .num n => .ok (numberToString n)
  | .str s => .ok s
  | .arr items => joinItems items
  | .obj props => objectToString props
end

/-- The conversion the `textContent` setter applies to its argument (a
nullable `DOMString`): `null` and `undefined` become the empty string, every
other value goes through `ToString`. -/
def textContentOf : JSValue → Except JSError String
  | .undefined => .ok ""
  | .null => .ok ""
  | v => toStr v

/-- The property read `data.answer`: a `TypeError` on `null` and `undefined`,
the own property of an object, and `undefined` on every other value (no
prototype has a property of that name). -/
def getAnswer : JSValue → Except JSError JSValue
  | .undefined => .error .typeError
  | .null => .error .typeError
  | .obj props =>
    match props.lookup "answer" with
    | some v => .ok v
    | none => .ok .undefined
  | _ => .ok .undefined

/-! ## The page -/

/-- A child of the `messages` container: a rendered message (`isUser`
selects the `user-message` or `bot-message` class, `text` is the paragraph's
text content) or the element with id `loading-message`. -/
inductive Elem where
  | message (isUser : Bool) (text : String)
  | loading
  deriving DecidableEq, Repr

/-- The arguments of one `fetch` call; `body` lists the fields of the object
passed to `JSON.stringify`. -/
structure Request where
  url : String
  method : String
  headers : List (String × String)
  body : List (String × String)
  deriving DecidableEq, Repr

/-- What the script does to the page and the network, in the order it does
it. -/
inductive Effect where
  | appendChild (e : Elem)
  | scrollToBottom
  | removeLoading
  | setInputValue (v : String)
  | setDisabled (b : Bool)
  | classListAdd (c : String)
  | classListRemove (c : String)
  | focusInput
  | consoleError
  | fetch (req : Request)
  deriving DecidableEq, Repr

/-- The part of the page the script reads and writes: the children of
`messagesContainer`, the value and focus of `queryInput`, the `disabled` flag
and class list of `submitBtn`, and the journal of effects performed so far.
The document is taken to hold no element with id `loading-message` outside
the container. -/
structure Widget where
  transcript : List Elem
  inputValue : String
  disabled : Bool
  classList : List String
  focused : Bool
  log : List Effect
  deriving DecidableEq, Repr

/-- Record an effect in the journal. -/
def record (e : Effect) (w : Widget) : Widget :=
  { w with log := w.log ++ [e] }

/-- The call `messagesContainer.appendChild(el)`. -/
def appendChild (e : Elem) (w : Widget) : Widget :=
  record (.appendChild e) { w with transcript := w.transcript ++ [e] }

/-- The assignment `messagesContainer.scrollTop = messagesContainer.scrollHeight`. -/
def scrollToBottom (w : Widget) : Widget :=
  record .scrollToBottom w

/-- The assignment `queryInput.value = v`. -/
def setInputValue (v : String) (w : Widget) : Widget :=
  record (.setInputValue v) { w with inputValue := v }

/-- The assignment `submitBtn.disabled = b`. -/
def setDisabled (b : Bool) (w : Widget) : Widget :=
  record (.setDisabled b) { w with disabled := b }

/-- The call `submitBtn.classList.add(c)`. -/
def classListAdd (c : String) (w : Widget) : Widget :=
  record (.classListAdd c)
    { w with classList := if c ∈ w.classList then w.classList else w.classList ++ [c] }

/-- The call `submitBtn.classList.remove(c)`. -/
def classListRemove (c : String) (w : Widget) : Widget :=
  record (.classListRemove c) { w with classList := w.classList.filter (fun d => d != c) }

/-- The call `queryInput.focus()`. -/
def focusInput (w : Widget) : Widget :=
  record .focusInput { w with focused := true }

/-- The call `console.error('Error:', error)`. -/
def consoleError (w : Widget) : Widget :=
  record .consoleError w

/-- The call `fetch(url, options)`: the request leaves the page. -/
def fetch (req : Request) (w : Widget) : Widget :=
  record (.fetch req) w

/-- The requests issued so far, oldest first. -/
def requests (w : Widget) : List Request :=
  w.log.filterMap (fun e => match e with | .fetch r => some r | _ => none)

/-- The state a block of statements leaves behind, and the exception it
threw, if any. -/
structure Result where
  state : Widget
  thrown : Option JSError
  deriving DecidableEq, Repr

/-- The function `addMessage(content, isUser)`. The elements are built
detached; `p.textContent = content` converts `content` to text and may throw
before anything is attached. -/
def addMessage (content : JSValue) (isUser : Bool) (w : Widget) : Result :=
  match textContentOf content with
  | .error e => ⟨w, some e⟩
  | .ok text => ⟨scrollToBottom (appendChild (.message isUser text) w), none⟩

/-- The function `showLoadingMessage()`. -/
def showLoadingMessage (w : Widget) : Widget :=
  scrollToBottom (appendChild .loading w)

/-- The function `removeLoadingMessage()`: `getElementById` finds the first
element with the id in tree order, and it is removed when there is one. -/
def removeLoadingMessage (w : Widget) : Widget :=
  if Elem.loading ∈ w.transcript then
    record .removeLoading { w with transcript := w.transcript.erase .loading }
  else w

/-- What `crypto.randomUUID`, `Date.now()` and `Math.random().toString(36)`
give when the script is loaded (`randomUUID = none`: not available). -/
structure Page where
  randomUUID : Option String
  now : Nat
  random36 : String

/-- The constant `sessionId`, computed once when the script is loaded. -/
def sessionId (p : Page) : String :=
  match p.randomUUID with
  | some uuid => uuid
  | none =>
    "session_" ++ Nat.repr p.now ++ "_" ++ String.mk ((p.random36.data.drop 2).take 9)

/-- The text shown when the reply has no usable answer. -/
def fallbackText : String := "Sorry, I could not generate a response. Please try again."

/-- The text shown when the request failed. -/
def errorText : String :=
  "Sorry, an error occurred while processing your query. Please try again."

/-! ## The submit listener -/

/-- The two suspension points of the listener. -/
inductive Await where
  | fetch
  | json
  deriving DecidableEq, Repr

/-- How a run of the listener stands: it returned, it is suspended at an
`await`, or an exception left it (its promise rejected). -/
inductive Status where
  | returned
  | awaiting (a : Await)
  | threw (e : JSError)
  deriving DecidableEq, Repr

/-- A run of the listener up to its next suspension or its end. -/
structure Run where
  state : Widget
  status : Status
  deriving DecidableEq, Repr

/-- A settled promise. -/
inductive Settled (α : Type) where
  | fulfilled (v : α)
  | rejected (e : JSError)

/-- The object passed to `fetch` by the listener. -/
def queryRequest (sid query : String) : Request :=
  { url := "/query", method := "POST",
    headers := [("Content-Type", "application/json")],
    body := [("q", query), ("session_id", sid)] }

/-- The listener from the `submit` event to `await fetch(...)`. -/
def submitHandler (sid : String) (w : Widget) : Run :=
  let query := jsTrim w.inputValue
  if query = "" then ⟨w, .returned⟩
  else
    let r := addMessage (.str query) true w
    match r.thrown with
    | some e => ⟨r.state, .threw e⟩
    | none =>
      let w1 := setInputValue "" r.state
      let w2 := classListAdd "loading" (setDisabled true w1)
      let w3 := showLoadingMessage w2
      ⟨fetch (queryRequest sid query) w3, .awaiting .fetch⟩

/-- The `catch` block. -/
def catchBlock (w : Widget) : Result :=
  addMessage (.str errorText) false (removeLoadingMessage (consoleError w))

/-- The `finally` block. -/
def finallyBlock (w : Widget) : Widget :=
  focusInput (classListRemove "loading" (setDisabled false w))

/-- The end of the `try` statement: the `catch` block runs when the `try`
block threw, then the `finally` block; an exception thrown by the `catch`
block leaves the listener. -/
def finish (r : Result) : Run :=
  let r1 := match r.thrown with
    | none => r
    | some _ => catchBlock r.state
  ⟨finallyBlock r1.state,
    match r1.thrown with
    | none => .returned
    | some e => .threw e⟩

/-- The listener resumed when the `fetch` promise settles, with the HTTP
status of the response when it fulfilled; `response.ok` is a status in the
range 200 to 299. -/
def resumeFetch (res : Settled Nat) (w : Widget) : Run :=
  match res with
  | .rejected e => finish ⟨w, some e⟩
  | .fulfilled status =>
    if 200 ≤ status ∧ status ≤ 299 then ⟨w, .awaiting .json⟩
    else finish ⟨w, some (.error ("HTTP error! status: " ++ Nat.repr status))⟩

/-- The rest of the `try` block once `response.json()` gave `data`. -/
def answerBlock (data : JSValue) (w : Widget) : Result :=
  let w1 := removeLoadingMessage w
  match getAnswer data with
  | .error e => ⟨w1, some e⟩
  | .ok answer =>
    if toBoolean answer then addMessage answer false w1
    else addMessage (.str fallbackText) false w1

/-- The listener resumed when the `response.json()` promise settles. -/
def resumeJson (res : Settled JSValue) (w : Widget) : Run :=
  match res with
  | .rejected e => finish ⟨w, some e⟩
  | .fulfilled data => finish (answerBlock data w)

/-- How a request ends: the `fetch` promise rejects, or it fulfils with an
HTTP status and the `response.json()` promise settles. -/
inductive Outcome where
  | fetchRejected (e : JSError)
  | response (status : Nat) (body : Settled JSValue)

/-- One submission run from the `submit` event to the end of the listener,
with nothing else happening on the page in between. -/
def runToCompletion (sid : String) (w : Widget) (o : Outcome) : Run :=
  let r := submitHandler sid w
  match r.status with
  | .awaiting .fetch =>
    match o with
    | .fetchRejected e => resumeFetch (.rejected e) r.state
    | .response status body =>
      let r1 := resumeFetch (.fulfilled status) r.state
      match r1.status with
      | .awaiting .json => resumeJson body r1.state
      | _ => r1
  | _ => r

/-! ## The page as a transition system -/

/-- A suspended run of the listener: `id` is the position of its request
among the requests issued, `point` the `await` it is suspended at. -/
structure Task where
  id : Nat
  point : Await
  deriving DecidableEq, Repr

/-- The page between two turns of the event loop: the widget, the suspended
runs of the listener (oldest first) and the exceptions that left a run. -/
structure Sys where
  widget : Widget
  tasks : List Task
  uncaught : List JSError
  deriving DecidableEq, Repr

/-- What can happen to the page: the `load` event, the user editing the text
control, a click on the submit button, a key pressed in the text control, and
the settling of the promises of a request. -/
inductive Event where
  | load
  | input (v : String)
  | click
  | keydown (key : String) (shiftKey : Bool)
  | fetchSettled (id : Nat) (res : Settled Nat)
  | jsonSettled (id : Nat) (res : Settled JSValue)

/-- Modelled from the spec: the markup of the page is not among the sources.
The page when the script has run: `greeting` is what the container holds at
first, the text control is empty, the button enabled (the request state is
idle) and nothing has been done yet. -/
def init (greeting : List Elem) : Sys :=
  { widget := { transcript := greeting, inputValue := "", disabled := false,
                classList := [], focused := false, log := [] },
    tasks := [], uncaught := [] }

/-- Account for the resumption of the suspended run `id`: the widget is the
one the run left, and the run stays suspended, has ended, or has thrown. -/
def settle (id : Nat) (r : Run) (s : Sys) : Sys :=
  let others := s.tasks.filter (fun t => t.id != id)
  match r.status with
  | .returned => { s with widget := r.state, tasks := others }
  | .awaiting a => { s with widget := r.state, tasks := others ++ [⟨id, a⟩] }
  | .threw e => { widget := r.state, tasks := others, uncaught := s.uncaught ++ [e] }

/-- A `submit` event reaches the form: the listener runs up to its first
`await`, and a run that suspends there is kept under the position of its
request. -/
def dispatchSubmit (sid : String) (s : Sys) : Sys :=
  let r := submitHandler sid s.widget
  match r.status with
  | .returned => { s with widget := r.state }
  | .awaiting a =>
    { s with widget := r.state, tasks := s.tasks ++ [⟨(requests s.widget).length, a⟩] }
  | .threw e => { s with widget := r.state, uncaught := s.uncaught ++ [e] }

/-- The `keydown` listener of the text control. -/
def keydownHandler (sid : String) (key : String) (shiftKey : Bool) (s : Sys) : Sys :=
  if key = "Enter" ∧ shiftKey = false then dispatchSubmit sid s else s

/-- One turn of the event loop. A click on the submit button submits the form
only while the button is enabled (a disabled button does not activate); a
promise settles only for a run suspended on it. -/
def step (sid : String) (s : Sys) : Event → Sys
  | .load => { s with widget := focusInput s.widget }
  | .input v => { s with widget := { s.widget with inputValue := v } }
  | .click => if s.widget.disabled then s else dispatchSubmit sid s
  | .keydown key shiftKey => keydownHandler sid key shiftKey s
  | .fetchSettled id res =>
    if (⟨id, .fetch⟩ : Task) ∈ s.tasks then settle id (resumeFetch res s.widget) s else s
  | .jsonSettled id res =>
    if (⟨id, .json⟩ : Task) ∈ s.tasks then settle id (resumeJson res s.widget) s else s

/-- The page after a sequence of events. -/
def run (sid : String) (s : Sys) (evs : List Event) : Sys :=
  evs.foldl (step sid) s

/-- The number of loading placeholders in the transcript. -/
def placeholders (w : Widget) : Nat :=
  w.transcript.count .loading

/-- The texts of the bot messages attached so far, by the journal. -/
def botAppends (log : List Effect) : List String :=
  log.filterMap (fun e => match e with | .appendChild (.message false t) => some t | _ => none)

/-- The texts of the user messages attached so far, by the journal. -/
def userAppends (log : List Effect) : List String :=
  log.filterMap (fun e => match e with | .appendChild (.message true t) => some t | _ => none)

/-- The effects of the listener from the `submit` event to the `fetch` call,
for the trimmed text `query`. -/
def submitEffects (sid query : String) : List Effect :=
  [.appendChild (.message true query), .scrollToBottom, .setInputValue "",
   .setDisabled true, .classListAdd "loading", .appendChild .loading, .scrollToBottom,
   .fetch (queryRequest sid query)]

/-- An Enter key press without Shift: the case in which the `keydown`
listener dispatches a `submit` event. -/
def isEnterKey : Event → Bool
  | .keydown key shiftKey => key == "Enter" && !shiftKey
  | _ => false

/-- A sequence of events in which Enter is pressed only while the submit
button is enabled. -/
def enterOnlyWhenEnabled (sid : String) (s : Sys) : List Event → Bool
  | [] => true
  | ev :: rest =>
    (!isEnterKey ev || !s.widget.disabled) && enterOnlyWhenEnabled sid (step sid s ev) rest

/-- The discipline the disabled button stands for: at most one run of the
listener is suspended, the button is disabled exactly while one is, and the
transcript holds one placeholder for each suspended run. -/
def Exclusive (s : Sys) : Prop :=
  s.tasks.length ≤ 1 ∧ (s.widget.disabled = true ↔ s.tasks ≠ []) ∧
    placeholders s.widget = s.tasks.length

/-! ## Trimming -/

theorem trimEnd_eq_nil_iff (cs : List Char) :
    trimEnd cs = [] ↔ ∀ c ∈ cs, isWhiteSpace c = true := by
  simp [trimEnd, List.dropWhile_eq_nil_iff]

theorem trimStart_eq_nil_iff (cs : List Char) :
    trimStart cs = [] ↔ ∀ c ∈ cs, isWhiteSpace c = true := by
  simp [trimStart, List.dropWhile_eq_nil_iff]

theorem all_trimStart_iff (cs : List Char) :
    (∀ c ∈ trimStart cs, isWhiteSpace c = true) ↔ ∀ c ∈ cs, isWhiteSpace c = true := by
  induction cs with
  | nil => simp [trimStart]
  | cons a t ih =>
    by_cases ha : isWhiteSpace a = true
    · have : trimStart (a :: t) = trimStart t := by simp [trimStart, List.dropWhile, ha]
      rw [this, ih]; simp [ha]
    · have : trimStart (a :: t) = a :: t := by simp [trimStart, List.dropWhile, ha]
      rw [this]

theorem jsTrim_eq_empty_iff (v : String) :
    jsTrim v = "" ↔ ∀ c ∈ v.data, isWhiteSpace c = true := by
  have h : jsTrim v = "" ↔ trimEnd (trimStart v.data) = [] := by
    unfold jsTrim
    constructor
    · intro h; exact congrArg String.data h
    · intro h; rw [h]
  rw [h, trimEnd_eq_nil_iff, all_trimStart_iff]

/-! ## The listener up to the request -/

theorem textContentOf_str (t : String) : textContentOf (.str t) = .ok t := by
  simp [textContentOf, toStr]

theorem addMessage_str (t : String) (isUser : Bool) (w : Widget) :
    addMessage (.str t) isUser w =
      ⟨scrollToBottom (appendChild (.message isUser t) w), none⟩ := by
  simp [addMessage, textContentOf_str]

theorem submitHandler_blank (sid : String) (w : Widget) (h : jsTrim w.inputValue = "") :
    submitHandler sid w = ⟨w, .returned⟩ := by
  simp [submitHandler, h]

theorem submitHandler_nonblank (sid : String) (w : Widget) (h : jsTrim w.inputValue ≠ "") :
    submitHandler sid w =
      ⟨{ transcript := w.transcript ++ [.message true (jsTrim w.inputValue), .loading],
         inputValue := "",
         disabled := true,
         classList := if "loading" ∈ w.classList then w.classList
                      else w.classList ++ ["loading"],
         focused := w.focused,
         log := w.log ++ submitEffects sid (jsTrim w.inputValue) }, .awaiting .fetch⟩ := by
  simp [submitHandler, h, addMessage_str, scrollToBottom, appendChild, record, setInputValue,
    setDisabled, classListAdd, showLoadingMessage, fetch, submitEffects]

/-- C1: when the trimmed text of the input control is empty (the value is
empty or holds white space only), the submit listener returns at once and
leaves the page as it was: transcript, input value, disabled flag and class
list of the button are unchanged, no placeholder is added, no effect is
performed and no request is issued; a submit event dispatched to the page
leaves it unchanged as well. -/
theorem submit_blank_is_noop (sid : String) (s : Sys)
    (h : jsTrim s.widget.inputValue = "" ∨
      ∀ c ∈ s.widget.inputValue.data, isWhiteSpace c = true) :
    submitHandler sid s.widget = ⟨s.widget, .returned⟩ ∧
    (submitHandler sid s.widget).state.transcript = s.widget.transcript ∧
    (submitHandler sid s.widget).state.inputValue = s.widget.inputValue ∧
    (submitHandler sid s.widget).state.disabled = s.widget.disabled ∧
    (submitHandler sid s.widget).state.classList = s.widget.classList ∧
    placeholders (submitHandler sid s.widget).state = placeholders s.widget ∧
    (submitHandler sid s.widget).state.log = s.widget.log ∧
    requests (submitHandler sid s.widget).state = requests s.widget ∧
    dispatchSubmit sid s = s ∧
    keydownHandler sid "Enter" false s = s := by
  have ht : jsTrim s.widget.inputValue = "" := by
    rcases h with h | h
    · exact h
    · exact (jsTrim_eq_empty_iff _).2 h
  have hr := submitHandler_blank sid s.widget ht
  refine ⟨hr, ?_, ?_, ?_, ?_, ?_, ?_, ?_, ?_, ?_⟩ <;>
    simp [hr, dispatchSubmit, keydownHandler]

theorem submit_blank_is_noop_witness :
    (∀ c ∈ (" \t\n" : String).data, isWhiteSpace c = true) ∧
    submitHandler "sid" (init [.message false "Hello"]).widget
        = ⟨(init [.message false "Hello"]).widget, .returned⟩ ∧
    dispatchSubmit "sid" { (init []) with
        widget := { (init []).widget with inputValue := " \t\n" } }
      = { (init []) with widget := { (init []).widget with inputValue := " \t\n" } } :=
  ⟨by decide,
   (submit_blank_is_noop "sid" (init [.message false "Hello"]) (Or.inl (by decide))).1,
   (submit_blank_is_noop "sid"
      { (init []) with widget := { (init []).widget with inputValue := " \t\n" } }
      (Or.inr (by decide))).2.2.2.2.2.2.2.2.1⟩

/-- C2: when the trimmed text `t` of the input control is not empty, the
listener reaches the `fetch` call having, in this order, attached one user
message with text `t`, cleared the input control, disabled the button and
added its `loading` class, and attached one loading placeholder; the
transcript is then the previous one followed by the user message and the
placeholder, the request issued is the last effect, and its `q` field is
`t`. -/
theorem submit_nonblank_reaches_fetch (sid : String) (w : Widget)
    (h : jsTrim w.inputValue ≠ "") :
    (submitHandler sid w).status = .awaiting .fetch ∧
    (submitHandler sid w).state.log = w.log ++
      [.appendChild (.message true (jsTrim w.inputValue)), .scrollToBottom,
       .setInputValue "", .setDisabled true, .classListAdd "loading",
       .appendChild .loading, .scrollToBottom,
       .fetch (queryRequest sid (jsTrim w.inputValue))] ∧
    (submitHandler sid w).state.transcript =
      w.transcript ++ [.message true (jsTrim w.inputValue), .loading] ∧
    (submitHandler sid w).state.inputValue = "" ∧
    (submitHandler sid w).state.disabled = true ∧
    "loading" ∈ (submitHandler sid w).state.classList ∧
    userAppends (submitHandler sid w).state.log
      = userAppends w.log ++ [jsTrim w.inputValue] ∧
    placeholders (submitHandler sid w).state = placeholders w + 1 ∧
    requests (submitHandler sid w).state
      = requests w ++ [queryRequest sid (jsTrim w.inputValue)] ∧
    (queryRequest sid (jsTrim w.inputValue)).body.lookup "q" = some (jsTrim w.inputValue) := by
  rw [submitHandler_nonblank sid w h]
  refine ⟨rfl, rfl, rfl, rfl, rfl, ?_, ?_, ?_, ?_, ?_⟩
  · by_cases hc : "loading" ∈ w.classList <;> simp [hc]
  · simp [userAppends, submitEffects, List.filterMap_append]
  · simp [placeholders, List.count_append]
  · simp [requests, submitEffects, List.filterMap_append]
  · simp [queryRequest, List.lookup]

theorem submit_nonblank_reaches_fetch_witness :
    jsTrim "  What is the capital?  " = "What is the capital?" ∧
    (submitHandler "sid" { (init []).widget with inputValue := "  What is the capital?  " }
      ).state.transcript = [.message true "What is the capital?", .loading] :=
  ⟨by decide,
   (submit_nonblank_reaches_fetch "sid"
      { (init []).widget with inputValue := "  What is the capital?  " } (by decide)).2.2.1⟩

/-! ## The listener after the request -/

theorem removeLoadingMessage_transcript (w : Widget) :
    (removeLoadingMessage w).transcript = w.transcript.erase .loading := by
  unfold removeLoadingMessage
  split
  · rfl
  · rename_i h
    exact (List.erase_of_not_mem h).symm

theorem removeLoadingMessage_botAppends (w : Widget) :
    botAppends (removeLoadingMessage w).log = botAppends w.log := by
  unfold removeLoadingMessage
  split <;> simp [botAppends, record, List.filterMap_append]

theorem removeLoadingMessage_userAppends (w : Widget) :
    userAppends (removeLoadingMessage w).log = userAppends w.log := by
  unfold removeLoadingMessage
  split <;> simp [userAppends, record, List.filterMap_append]

theorem removeLoadingMessage_requests (w : Widget) :
    requests (removeLoadingMessage w) = requests w := by
  unfold removeLoadingMessage
  split <;> simp [requests, record, List.filterMap_append]

theorem removeLoadingMessage_of_not_mem (w : Widget) (h : Elem.loading ∉ w.transcript) :
    removeLoadingMessage w = w := by
  simp [removeLoadingMessage, h]

theorem removeLoadingMessage_of_mem (w : Widget) (h : Elem.loading ∈ w.transcript) :
    removeLoadingMessage w =
      { w with transcript := w.transcript.erase .loading, log := w.log ++ [.removeLoading] } := by
  simp [removeLoadingMessage, h, record]

theorem finish_none (w : Widget) : finish ⟨w, none⟩ = ⟨finallyBlock w, .returned⟩ := by
  simp [finish]

theorem finish_some (w : Widget) (e : JSError) :
    finish ⟨w, some e⟩ =
      ⟨finallyBlock (scrollToBottom (appendChild (.message false errorText)
        (removeLoadingMessage (consoleError w)))), .returned⟩ := by
  simp [finish, catchBlock, addMessage_str]

theorem finish_returned (r : Result) : (finish r).status = .returned := by
  obtain ⟨w, t⟩ := r
  cases t with
  | none => rw [finish_none]
  | some e => rw [finish_some]

theorem finallyBlock_fields (w : Widget) :
    (finallyBlock w).transcript = w.transcript ∧
    (finallyBlock w).inputValue = w.inputValue ∧
    (finallyBlock w).disabled = false ∧
    (finallyBlock w).classList = w.classList.filter (fun d => d != "loading") ∧
    (finallyBlock w).focused = true ∧
    (finallyBlock w).log =
      w.log ++ [.setDisabled false, .classListRemove "loading", .focusInput] := by
  simp [finallyBlock, focusInput, classListRemove, setDisabled, record]

theorem finish_idle (r : Result) :
    (finish r).state.disabled = false ∧ "loading" ∉ (finish r).state.classList ∧
    (finish r).state.focused = true := by
  obtain ⟨w, t⟩ := r
  cases t with
  | none =>
    rw [finish_none]
    simp [(finallyBlock_fields w).2.2.1, (finallyBlock_fields w).2.2.2.1,
      (finallyBlock_fields w).2.2.2.2.1]
  | some e =>
    rw [finish_some]
    simp [(finallyBlock_fields _).2.2.1, (finallyBlock_fields _).2.2.2.1,
      (finallyBlock_fields _).2.2.2.2.1]

theorem resumeFetch_ok (status : Nat) (w : Widget) (hs : 200 ≤ status ∧ status ≤ 299) :
    resumeFetch (.fulfilled status) w = ⟨w, .awaiting .json⟩ := by
  simp [resumeFetch, hs]

theorem resumeFetch_not_ok (status : Nat) (w : Widget) (hs : ¬ (200 ≤ status ∧ status ≤ 299)) :
    resumeFetch (.fulfilled status) w =
      finish ⟨w, some (.error ("HTTP error! status: " ++ Nat.repr status))⟩ := by
  simp only [resumeFetch, if_neg hs]

theorem runToCompletion_fetchRejected (sid : String) (w : Widget) (e : JSError)
    (h : jsTrim w.inputValue ≠ "") :
    runToCompletion sid w (.fetchRejected e) = finish ⟨(submitHandler sid w).state, some e⟩ := by
  simp [runToCompletion, submitHandler_nonblank sid w h, resumeFetch]

theorem runToCompletion_not_ok (sid : String) (w : Widget) (status : Nat)
    (body : Settled JSValue) (h : jsTrim w.inputValue ≠ "")
    (hs : ¬ (200 ≤ status ∧ status ≤ 299)) :
    runToCompletion sid w (.response status body) =
      finish ⟨(submitHandler sid w).state,
        some (.error ("HTTP error! status: " ++ Nat.repr status))⟩ := by
  simp only [runToCompletion, submitHandler_nonblank sid w h, resumeFetch_not_ok _ _ hs,
    finish_returned]

theorem runToCompletion_ok (sid : String) (w : Widget) (status : Nat)
    (body : Settled JSValue) (h : jsTrim w.inputValue ≠ "")
    (hs : 200 ≤ status ∧ status ≤ 299) :
    runToCompletion sid w (.response status body) =
      resumeJson body (submitHandler sid w).state := by
  simp only [runToCompletion, submitHandler_nonblank sid w h, resumeFetch_ok _ _ hs]

theorem finish_shown (w : Widget) (x : String) :
    finish ⟨scrollToBottom (appendChild (.message false x) (removeLoadingMessage w)), none⟩ =
      ⟨{ transcript := w.transcript.erase .loading ++ [.message false x],
         inputValue := w.inputValue,
         disabled := false,
         classList := w.classList.filter (fun d => d != "loading"),
         focused := true,
         log := (removeLoadingMessage w).log ++
           [.appendChild (.message false x), .scrollToBottom, .setDisabled false,
            .classListRemove "loading", .focusInput] }, .returned⟩ := by
  rw [finish_none]
  have ht := removeLoadingMessage_transcript w
  have h1 : (removeLoadingMessage w).inputValue = w.inputValue := by
    unfold removeLoadingMessage; split <;> rfl
  have h2 : (removeLoadingMessage w).classList = w.classList := by
    unfold removeLoadingMessage; split <;> rfl
  simp [finallyBlock, focusInput, classListRemove, setDisabled, record, scrollToBottom,
    appendChild, ht, h1, h2]

theorem answerBlock_truthy_str (w : Widget) (data : JSValue) (a : String)
    (ha : getAnswer data = .ok (.str a)) (hne : a ≠ "") :
    answerBlock data w =
      ⟨scrollToBottom (appendChild (.message false a) (removeLoadingMessage w)), none⟩ := by
  simp [answerBlock, ha, toBoolean, hne, addMessage_str]

theorem answerBlock_falsy (w : Widget) (data answer : JSValue)
    (ha : getAnswer data = .ok answer) (hf : toBoolean answer = false) :
    answerBlock data w =
      ⟨scrollToBottom (appendChild (.message false fallbackText) (removeLoadingMessage w)),
        none⟩ := by
  simp [answerBlock, ha, hf, addMessage_str]

/-- C3: a response with a success status (200 to 299) lets the listener go on
to the body, and when the body parses to an object whose `answer` is a
non-empty string `a`, the listener returns having attached exactly one bot
message, with text `a`, after removing the placeholder; no user message is
attached. A whole submission with this outcome attaches exactly one bot
message, with text `a`. -/
theorem answer_is_shown (sid : String) (w : Widget) (status : Nat)
    (props : List (String × JSValue)) (a : String)
    (hs : 200 ≤ status ∧ status ≤ 299)
    (ha : props.lookup "answer" = some (.str a)) (hne : a ≠ "") :
    resumeFetch (.fulfilled status) w = ⟨w, .awaiting .json⟩ ∧
    (resumeJson (.fulfilled (.obj props)) w).status = .returned ∧
    (resumeJson (.fulfilled (.obj props)) w).state.transcript =
      w.transcript.erase .loading ++ [.message false a] ∧
    botAppends (resumeJson (.fulfilled (.obj props)) w).state.log = botAppends w.log ++ [a] ∧
    userAppends (resumeJson (.fulfilled (.obj props)) w).state.log = userAppends w.log ∧
    (jsTrim w.inputValue ≠ "" →
      botAppends (runToCompletion sid w (.response status (.fulfilled (.obj props)))).state.log
        = botAppends w.log ++ [a]) := by
  have hg : getAnswer (.obj props) = .ok (.str a) := by simp [getAnswer, ha]
  have hj : ∀ v : Widget, resumeJson (.fulfilled (.obj props)) v =
      finish ⟨scrollToBottom (appendChild (.message false a) (removeLoadingMessage v)),
        none⟩ := by
    intro v
    simp only [resumeJson, answerBlock_truthy_str v _ a hg hne]
  refine ⟨resumeFetch_ok _ _ hs, ?_, ?_, ?_, ?_, ?_⟩
  · rw [hj, finish_shown]
  · rw [hj, finish_shown]
  · rw [hj, finish_shown]
    have := removeLoadingMessage_botAppends w
    simp only [botAppends] at this ⊢
    simp [List.filterMap_append, this]
  · rw [hj, finish_shown]
    have := removeLoadingMessage_userAppends w
    simp only [userAppends] at this ⊢
    simp [List.filterMap_append, this]
  · intro h
    rw [runToCompletion_ok sid w status _ h hs, hj, finish_shown]
    have := removeLoadingMessage_botAppends (submitHandler sid w).state
    simp only [botAppends] at this ⊢
    simp [List.filterMap_append, this]
    simp [submitHandler_nonblank sid w h, submitEffects, List.filterMap_append]

theorem answer_is_shown_witness :
    (resumeJson (.fulfilled (.obj [("answer", .str "Paris is the capital.")]))
      (submitHandler "sid" { (init []).widget with inputValue := "Capital of France?" }).state
      ).state.transcript =
    [.message true "Capital of France?", .message false "Paris is the capital."] :=
  (answer_is_shown "sid"
    (submitHandler "sid" { (init []).widget with inputValue := "Capital of France?" }).state
    200 [("answer", .str "Paris is the capital.")] "Paris is the capital."
    (by decide) rfl (by decide)).2.2.1

/-- C4, as stated, fails: after a success status, the body `null` makes the
read `data.answer` throw, so the bot message is the error text, and the body
`{ "answer": 42 }` has a truthy answer, so the bot message is the text `42`;
neither is the fallback text. -/
theorem fallback_not_for_every_shape :
    (runToCompletion "sid" { (init []).widget with inputValue := "hi" }
      (.response 200 (.fulfilled .null))).state.transcript
      = [.message true "hi", .message false errorText] ∧
    (runToCompletion "sid" { (init []).widget with inputValue := "hi" }
      (.response 200 (.fulfilled (.obj [("answer", .num (.int 42))])))).state.transcript
      = [.message true "hi", .message false "42"] ∧
    errorText ≠ fallbackText ∧ "42" ≠ fallbackText := by
  refine ⟨by rfl, by rfl, by decide, by decide⟩

/-- C4, amended: after a success status (200 to 299), when the read
`data.answer` on the parsed body succeeds (the body is not `null`) and gives
a falsy value (a missing answer, `null`, `false`, `0` or the empty string),
the listener returns having attached exactly one bot message, the fallback
text, after removing the placeholder. -/
theorem falsy_answer_gets_fallback (sid : String) (w : Widget) (status : Nat)
    (data answer : JSValue) (hs : 200 ≤ status ∧ status ≤ 299)
    (ha : getAnswer data = .ok answer) (hf : toBoolean answer = false) :
    resumeFetch (.fulfilled status) w = ⟨w, .awaiting .json⟩ ∧
    (resumeJson (.fulfilled data) w).status = .returned ∧
    (resumeJson (.fulfilled data) w).state.transcript =
      w.transcript.erase .loading ++ [.message false fallbackText] ∧
    botAppends (resumeJson (.fulfilled data) w).state.log
      = botAppends w.log ++ [fallbackText] ∧
    (jsTrim w.inputValue ≠ "" →
      botAppends (runToCompletion sid w (.response status (.fulfilled data))).state.log
        = botAppends w.log ++ [fallbackText]) := by
  have hj : ∀ v : Widget, resumeJson (.fulfilled data) v =
      finish ⟨scrollToBottom (appendChild (.message false fallbackText)
        (removeLoadingMessage v)), none⟩ := by
    intro v
    simp only [resumeJson, answerBlock_falsy v _ _ ha hf]
  refine ⟨resumeFetch_ok _ _ hs, ?_, ?_, ?_, ?_⟩
  · rw [hj, finish_shown]
  · rw [hj, finish_shown]
  · rw [hj, finish_shown]
    have := removeLoadingMessage_botAppends w
    simp only [botAppends] at this ⊢
    simp [List.filterMap_append, this]
  · intro h
    rw [runToCompletion_ok sid w status _ h hs, hj, finish_shown]
    have := removeLoadingMessage_botAppends (submitHandler sid w).state
    simp only [botAppends] at this ⊢
    simp [List.filterMap_append, this]
    simp [submitHandler_nonblank sid w h, submitEffects, List.filterMap_append]

theorem falsy_answer_gets_fallback_witness :
    (resumeJson (.fulfilled (.obj []))
      (submitHandler "sid" { (init []).widget with inputValue := "hi" }).state
      ).state.transcript =
    [.message true "hi",
     .message false "Sorry, I could not generate a response. Please try again."] :=
  (falsy_answer_gets_fallback "sid"
    (submitHandler "sid" { (init []).widget with inputValue := "hi" }).state
    200 (.obj []) .undefined (by decide) rfl rfl).2.2.1

theorem placeholders_removeLoadingMessage (w : Widget) :
    placeholders (removeLoadingMessage w) = placeholders w - 1 := by
  simp [placeholders, removeLoadingMessage_transcript, List.count_erase_self]

theorem placeholders_finish_none (w : Widget) :
    placeholders (finish ⟨w, none⟩).state = placeholders w := by
  rw [finish_none]
  simp [placeholders, (finallyBlock_fields w).1]

theorem placeholders_finish_some (w : Widget) (e : JSError) :
    placeholders (finish ⟨w, some e⟩).state = placeholders w - 1 := by
  rw [finish_some]
  have h := placeholders_removeLoadingMessage (consoleError w)
  have hc : (consoleError w).transcript = w.transcript := rfl
  simp only [placeholders, hc] at h ⊢
  simp [(finallyBlock_fields _).1, scrollToBottom, appendChild, record, List.count_append, h]

theorem botAppends_finish_some (w : Widget) (e : JSError) :
    botAppends (finish ⟨w, some e⟩).state.log = botAppends w.log ++ [errorText] := by
  rw [finish_some]
  have h := removeLoadingMessage_botAppends (consoleError w)
  have hc : botAppends (consoleError w).log = botAppends w.log := by
    simp [botAppends, consoleError, record, List.filterMap_append]
  rw [hc] at h
  simp only [botAppends] at h ⊢
  simp [(finallyBlock_fields _).2.2.2.2.2, scrollToBottom, appendChild, record,
    List.filterMap_append, h]

theorem erase_loading_after_user (T : List Elem) (t : String) (h : Elem.loading ∉ T) :
    (T ++ [Elem.message true t, Elem.loading]).erase .loading = T ++ [Elem.message true t] := by
  rw [List.erase_append_right _ h]
  simp [List.erase_cons]

theorem finish_failed (w : Widget) (e : JSError) (h : Elem.loading ∈ w.transcript) :
    finish ⟨w, some e⟩ =
      ⟨{ transcript := w.transcript.erase .loading ++ [.message false errorText],
         inputValue := w.inputValue,
         disabled := false,
         classList := w.classList.filter (fun d => d != "loading"),
         focused := true,
         log := w.log ++
           [.consoleError, .removeLoading, .appendChild (.message false errorText),
            .scrollToBottom, .setDisabled false, .classListRemove "loading",
            .focusInput] }, .returned⟩ := by
  rw [finish_some]
  have hm : Elem.loading ∈ (consoleError w).transcript := h
  rw [removeLoadingMessage_of_mem _ hm]
  simp [finallyBlock, focusInput, classListRemove, setDisabled, record, scrollToBottom,
    appendChild, consoleError]

/-- C5: a submission of non-empty text whose request fails (the `fetch`
promise rejects, the status is outside 200 to 299, or `response.json()`
rejects) runs, after the effects up to the request, exactly these: the error
is logged, the placeholder is removed, one bot message with the error text
is attached, and the button is enabled again. The bot messages attached are
the earlier ones and then the error text, and the button ends enabled. On
any page state the listener is resumed in, each of the three failures
attaches exactly one bot message, the error text, takes one placeholder away
and leaves the button enabled. -/
theorem failure_shows_error (sid : String) (w : Widget) (e : JSError) (status : Nat)
    (body : Settled JSValue) (o : Outcome) (h : jsTrim w.inputValue ≠ "")
    (ho : o = .fetchRejected e ∨
      (o = .response status body ∧ ¬ (200 ≤ status ∧ status ≤ 299)) ∨
      (o = .response status (.rejected e) ∧ 200 ≤ status ∧ status ≤ 299)) :
    (runToCompletion sid w o).status = .returned ∧
    (runToCompletion sid w o).state.log =
      w.log ++ submitEffects sid (jsTrim w.inputValue) ++
        [.consoleError, .removeLoading, .appendChild (.message false errorText),
         .scrollToBottom, .setDisabled false, .classListRemove "loading", .focusInput] ∧
    (runToCompletion sid w o).state.transcript =
      (w.transcript ++ [Elem.message true (jsTrim w.inputValue), Elem.loading]).erase .loading
        ++ [.message false errorText] ∧
    (Elem.loading ∉ w.transcript →
      (runToCompletion sid w o).state.transcript =
        w.transcript ++ [.message true (jsTrim w.inputValue), .message false errorText]) ∧
    botAppends (runToCompletion sid w o).state.log = botAppends w.log ++ [errorText] ∧
    (runToCompletion sid w o).state.disabled = false ∧
    (∀ v : Widget, ∀ r : Run,
      (r = resumeFetch (.rejected e) v ∨
       (r = resumeFetch (.fulfilled status) v ∧ ¬ (200 ≤ status ∧ status ≤ 299)) ∨
       r = resumeJson (.rejected e) v) →
      r.status = .returned ∧ botAppends r.state.log = botAppends v.log ++ [errorText] ∧
      placeholders r.state = placeholders v - 1 ∧ r.state.disabled = false) := by
  have hstep : ∀ v : Widget, ∀ r : Run,
      (r = resumeFetch (.rejected e) v ∨
       (r = resumeFetch (.fulfilled status) v ∧ ¬ (200 ≤ status ∧ status ≤ 299)) ∨
       r = resumeJson (.rejected e) v) →
      r.status = .returned ∧ botAppends r.state.log = botAppends v.log ++ [errorText] ∧
      placeholders r.state = placeholders v - 1 ∧ r.state.disabled = false := by
    intro v r hr
    have key : ∃ e1, r = finish ⟨v, some e1⟩ := by
      rcases hr with hr | ⟨hr, hs⟩ | hr
      · exact ⟨e, hr⟩
      · exact ⟨_, by rw [hr, resumeFetch_not_ok _ _ hs]⟩
      · exact ⟨e, hr⟩
    obtain ⟨e1, he1⟩ := key
    rw [he1]
    exact ⟨finish_returned _, botAppends_finish_some v e1, placeholders_finish_some v e1,
      (finish_idle _).1⟩
  have hm : Elem.loading ∈ (submitHandler sid w).state.transcript := by
    simp [submitHandler_nonblank sid w h]
  have key : ∃ e1, runToCompletion sid w o = finish ⟨(submitHandler sid w).state, some e1⟩ := by
    rcases ho with ho | ⟨ho, hs⟩ | ⟨ho, hs⟩
    · exact ⟨e, by rw [ho, runToCompletion_fetchRejected sid w e h]⟩
    · exact ⟨_, by rw [ho, runToCompletion_not_ok sid w status body h hs]⟩
    · exact ⟨e, by rw [ho, runToCompletion_ok sid w status _ h hs]; rfl⟩
  obtain ⟨e1, he1⟩ := key
  rw [he1, finish_failed _ e1 hm]
  refine ⟨rfl, ?_, ?_, ?_, ?_, rfl, hstep⟩
  · simp [submitHandler_nonblank sid w h]
  · simp [submitHandler_nonblank sid w h]
  · intro hn
    simp only [submitHandler_nonblank sid w h]
    rw [erase_loading_after_user w.transcript (jsTrim w.inputValue) hn]
    simp
  · simp [submitHandler_nonblank sid w h, botAppends, submitEffects, List.filterMap_append]

theorem failure_shows_error_witness :
    (runToCompletion "sid" { (init []).widget with inputValue := "hi" }
      (.fetchRejected .networkError)).state.transcript =
      [.message true "hi",
       .message false
         "Sorry, an error occurred while processing your query. Please try again."] ∧
    (runToCompletion "sid" { (init []).widget with inputValue := "hi" }
      (.response 500 (.fulfilled .null))).state.disabled = false :=
  ⟨(failure_shows_error "sid" { (init []).widget with inputValue := "hi" } .networkError 0
      (.rejected .networkError) (.fetchRejected .networkError) (by decide)
      (Or.inl rfl)).2.2.1,
   (failure_shows_error "sid" { (init []).widget with inputValue := "hi" } .networkError 500
      (.fulfilled .null) (.response 500 (.fulfilled .null)) (by decide)
      (Or.inr (Or.inl ⟨rfl, by decide⟩))).2.2.2.2.2.1⟩

theorem answerBlock_cases (data : JSValue) (w : Widget) :
    (∃ x, answerBlock data w =
      ⟨scrollToBottom (appendChild (.message false x) (removeLoadingMessage w)), none⟩) ∨
    (∃ e, answerBlock data w = ⟨removeLoadingMessage w, some e⟩) := by
  unfold answerBlock
  cases hg : getAnswer data with
  | error e => exact Or.inr ⟨e, rfl⟩
  | ok answer =>
    by_cases hb : toBoolean answer = true
    · simp only [hb, if_true]
      unfold addMessage
      cases ht : textContentOf answer with
      | error e => exact Or.inr ⟨e, rfl⟩
      | ok text => exact Or.inl ⟨text, rfl⟩
    · simp only [hb]
      exact Or.inl ⟨fallbackText, by simp [addMessage_str]⟩

theorem runToCompletion_cases (sid : String) (w : Widget) (o : Outcome)
    (h : jsTrim w.inputValue ≠ "") :
    (∃ e, runToCompletion sid w o = finish ⟨(submitHandler sid w).state, some e⟩) ∨
    (∃ x, runToCompletion sid w o =
      finish ⟨scrollToBottom (appendChild (.message false x)
        (removeLoadingMessage (submitHandler sid w).state)), none⟩) ∨
    (∃ e, runToCompletion sid w o =
      finish ⟨removeLoadingMessage (submitHandler sid w).state, some e⟩) := by
  cases o with
  | fetchRejected e => exact Or.inl ⟨e, runToCompletion_fetchRejected sid w e h⟩
  | response status body =>
    by_cases hs : 200 ≤ status ∧ status ≤ 299
    · rw [runToCompletion_ok sid w status body h hs]
      cases body with
      | rejected e => exact Or.inl ⟨e, rfl⟩
      | fulfilled data =>
        rcases answerBlock_cases data (submitHandler sid w).state with ⟨x, hx⟩ | ⟨e, he⟩
        · exact Or.inr (Or.inl ⟨x, by simp only [resumeJson, hx]⟩)
        · exact Or.inr (Or.inr ⟨e, by simp only [resumeJson, he]⟩)
    · exact Or.inl ⟨_, runToCompletion_not_ok sid w status body h hs⟩

theorem finish_thrown_after_removal (v : Widget) (e : JSError) (T : List Elem) (t : String)
    (hv : v.transcript = T ++ [Elem.message true t, Elem.loading])
    (hn : Elem.loading ∉ T) :
    finish ⟨removeLoadingMessage v, some e⟩ =
      ⟨{ transcript := T ++ [.message true t, .message false errorText],
         inputValue := v.inputValue,
         disabled := false,
         classList := v.classList.filter (fun d => d != "loading"),
         focused := true,
         log := v.log ++
           [.removeLoading, .consoleError, .appendChild (.message false errorText),
            .scrollToBottom, .setDisabled false, .classListRemove "loading",
            .focusInput] }, .returned⟩ := by
  have hm : Elem.loading ∈ v.transcript := by rw [hv]; simp
  have he : v.transcript.erase .loading = T ++ [Elem.message true t] := by
    rw [hv]; exact erase_loading_after_user T t hn
  rw [finish_some, removeLoadingMessage_of_mem v hm, he]
  have hnot : Elem.loading ∉ T ++ [Elem.message true t] := by simp [hn]
  simp [finallyBlock, focusInput, classListRemove, setDisabled, record, scrollToBottom,
    appendChild, consoleError, removeLoadingMessage, hnot]

/-! ## No exception leaves the listener -/

theorem submitHandler_status (sid : String) (w : Widget) :
    (submitHandler sid w).status = .returned ∨
      (submitHandler sid w).status = .awaiting .fetch := by
  by_cases h : jsTrim w.inputValue = ""
  · exact Or.inl (by rw [submitHandler_blank sid w h])
  · exact Or.inr (by rw [submitHandler_nonblank sid w h])

theorem resumeFetch_status (res : Settled Nat) (w : Widget) :
    (resumeFetch res w).status = .returned ∨ (resumeFetch res w).status = .awaiting .json := by
  cases res with
  | rejected e => exact Or.inl (finish_returned _)
  | fulfilled status =>
    by_cases hs : 200 ≤ status ∧ status ≤ 299
    · exact Or.inr (by rw [resumeFetch_ok _ _ hs])
    · exact Or.inl (by rw [resumeFetch_not_ok _ _ hs]; exact finish_returned _)

theorem resumeJson_status (res : Settled JSValue) (w : Widget) :
    (resumeJson res w).status = .returned := by
  cases res with
  | rejected e => exact finish_returned _
  | fulfilled data => exact finish_returned _

theorem settle_uncaught (id : Nat) (r : Run) (s : Sys)
    (h : r.status = .returned ∨ ∃ a, r.status = .awaiting a) :
    (settle id r s).uncaught = s.uncaught := by
  rcases h with h | ⟨a, h⟩ <;> simp [settle, h]

theorem dispatchSubmit_uncaught (sid : String) (s : Sys) :
    (dispatchSubmit sid s).uncaught = s.uncaught := by
  rcases submitHandler_status sid s.widget with h | h <;> simp [dispatchSubmit, h]

theorem step_uncaught (sid : String) (s : Sys) (ev : Event) :
    (step sid s ev).uncaught = s.uncaught := by
  cases ev with
  | load => rfl
  | input v => rfl
  | click =>
    simp only [step]
    split
    · rfl
    · exact dispatchSubmit_uncaught sid s
  | keydown key shiftKey =>
    simp only [step, keydownHandler]
    split
    · exact dispatchSubmit_uncaught sid s
    · rfl
  | fetchSettled id res =>
    simp only [step]
    split
    · apply settle_uncaught
      rcases resumeFetch_status res s.widget with h | h
      · exact Or.inl h
      · exact Or.inr ⟨_, h⟩
    · rfl
  | jsonSettled id res =>
    simp only [step]
    split
    · exact settle_uncaught _ _ _ (Or.inl (resumeJson_status res s.widget))
    · rfl

theorem run_uncaught (sid : String) (s : Sys) (evs : List Event) :
    (run sid s evs).uncaught = s.uncaught := by
  induction evs generalizing s with
  | nil => rfl
  | cons ev rest ih =>
    show (run sid (step sid s ev) rest).uncaught = s.uncaught
    rw [ih, step_uncaught]

/-- C6: a submission of non-empty text, whatever the outcome of its request
(an answer, an empty answer, a status outside 200 to 299, a network failure,
an unparseable body), ends with the listener returned (no exception leaves
it), the button enabled, its `loading` class removed and the focus on the
text input; on the page, under any sequence of events, no run of the
listener ever ends in an exception; and on any page state, a resumed run
either waits for the body or has returned with the button enabled, the
`loading` class removed and the focus on the text input. -/
theorem always_back_to_idle (sid : String) (w : Widget) (o : Outcome)
    (greeting : List Elem) (evs : List Event) (h : jsTrim w.inputValue ≠ "") :
    (runToCompletion sid w o).status = .returned ∧
    (runToCompletion sid w o).state.disabled = false ∧
    "loading" ∉ (runToCompletion sid w o).state.classList ∧
    (runToCompletion sid w o).state.focused = true ∧
    (run sid (init greeting) evs).uncaught = [] ∧
    (∀ (v : Widget) (r : Run),
      ((∃ res, r = resumeFetch res v) ∨ (∃ res, r = resumeJson res v)) →
      r.status = .awaiting .json ∨
      (r.status = .returned ∧ r.state.disabled = false ∧ "loading" ∉ r.state.classList ∧
        r.state.focused = true)) := by
  have hstep : ∀ (v : Widget) (r : Run),
      ((∃ res, r = resumeFetch res v) ∨ (∃ res, r = resumeJson res v)) →
      r.status = .awaiting .json ∨
      (r.status = .returned ∧ r.state.disabled = false ∧ "loading" ∉ r.state.classList ∧
        r.state.focused = true) := by
    intro v r hr
    rcases hr with ⟨res, hr⟩ | ⟨res, hr⟩
    · cases res with
      | rejected e => exact Or.inr (by rw [hr]; exact ⟨finish_returned _, finish_idle _⟩)
      | fulfilled status =>
        by_cases hs : 200 ≤ status ∧ status ≤ 299
        · exact Or.inl (by rw [hr, resumeFetch_ok _ _ hs])
        · exact Or.inr (by
            rw [hr, resumeFetch_not_ok _ _ hs]; exact ⟨finish_returned _, finish_idle _⟩)
    · cases res with
      | rejected e => exact Or.inr (by rw [hr]; exact ⟨finish_returned _, finish_idle _⟩)
      | fulfilled data => exact Or.inr (by rw [hr]; exact ⟨finish_returned _, finish_idle _⟩)
  have key : ∃ r, runToCompletion sid w o = finish r := by
    rcases runToCompletion_cases sid w o h with ⟨e, he⟩ | ⟨x, hx⟩ | ⟨e, he⟩
    · exact ⟨_, he⟩
    · exact ⟨_, hx⟩
    · exact ⟨_, he⟩
  obtain ⟨r, hr⟩ := key
  rw [hr]
  exact ⟨finish_returned r, (finish_idle r).1, (finish_idle r).2.1, (finish_idle r).2.2,
    run_uncaught sid (init greeting) evs, hstep⟩

theorem always_back_to_idle_witness :
    (runToCompletion "sid" { (init []).widget with inputValue := "hi" }
      (.response 200 (.fulfilled (.obj [("answer", .obj [("toString", .null)])])))).status
      = .returned ∧
    (runToCompletion "sid" { (init []).widget with inputValue := "hi" }
      (.response 503 (.rejected .syntaxError))).state.disabled = false :=
  ⟨(always_back_to_idle "sid" { (init []).widget with inputValue := "hi" }
      (.response 200 (.fulfilled (.obj [("answer", .obj [("toString", .null)])])))
      [] [] (by decide)).1,
   (always_back_to_idle "sid" { (init []).widget with inputValue := "hi" }
      (.response 503 (.rejected .syntaxError)) [] [] (by decide)).2.1⟩

/-- C10: a submission of non-empty text that runs to its end with nothing
else happening in between, started on a transcript without a placeholder,
leaves for every outcome the transcript it found, followed by one user
message with the trimmed text and then one bot message; the final transcript
holds no placeholder, exactly one user message and one bot message were
attached, and the placeholder was removed after every earlier bot message and
before the new one. -/
theorem completed_submission_transcript (sid : String) (w : Widget) (o : Outcome)
    (h : jsTrim w.inputValue ≠ "") (hn : Elem.loading ∉ w.transcript) :
    ∃ x : String,
      (runToCompletion sid w o).state.transcript =
        w.transcript ++ [.message true (jsTrim w.inputValue), .message false x] ∧
      Elem.loading ∉ (runToCompletion sid w o).state.transcript ∧
      userAppends (runToCompletion sid w o).state.log
        = userAppends w.log ++ [jsTrim w.inputValue] ∧
      botAppends (runToCompletion sid w o).state.log = botAppends w.log ++ [x] ∧
      ∃ pre post : List Effect,
        (runToCompletion sid w o).state.log = pre ++ [.removeLoading] ++ post ∧
        botAppends pre = botAppends w.log ∧ botAppends post = [x] := by
  have hm : Elem.loading ∈ (submitHandler sid w).state.transcript := by
    simp [submitHandler_nonblank sid w h]
  have hW := submitHandler_nonblank sid w h
  have her := erase_loading_after_user w.transcript (jsTrim w.inputValue) hn
  rcases runToCompletion_cases sid w o h with ⟨e, he⟩ | ⟨x, hx⟩ | ⟨e, he⟩
  · refine ⟨errorText, ?_⟩
    rw [he, finish_failed _ e hm]
    simp only [hW, her]
    refine ⟨by simp, by simp [hn], ?_, ?_, ?_⟩
    · simp [userAppends, submitEffects, List.filterMap_append]
    · simp [botAppends, submitEffects, List.filterMap_append]
    · refine ⟨w.log ++ submitEffects sid (jsTrim w.inputValue) ++ [.consoleError],
        [.appendChild (.message false errorText), .scrollToBottom, .setDisabled false,
          .classListRemove "loading", .focusInput], by simp, ?_, ?_⟩
      · simp [botAppends, submitEffects, List.filterMap_append]
      · simp [botAppends]
  · refine ⟨x, ?_⟩
    rw [hx, finish_shown, removeLoadingMessage_of_mem _ hm]
    simp only [hW, her]
    refine ⟨by simp, by simp [hn], ?_, ?_, ?_⟩
    · simp [userAppends, submitEffects, List.filterMap_append]
    · simp [botAppends, submitEffects, List.filterMap_append]
    · refine ⟨w.log ++ submitEffects sid (jsTrim w.inputValue),
        [.appendChild (.message false x), .scrollToBottom, .setDisabled false,
          .classListRemove "loading", .focusInput], by simp, ?_, ?_⟩
      · simp [botAppends, submitEffects, List.filterMap_append]
      · simp [botAppends]
  · refine ⟨errorText, ?_⟩
    rw [he, finish_thrown_after_removal _ e w.transcript (jsTrim w.inputValue)
      (by rw [hW]) hn]
    simp only [hW]
    refine ⟨by simp, by simp [hn], ?_, ?_, ?_⟩
    · simp [userAppends, submitEffects, List.filterMap_append]
    · simp [botAppends, submitEffects, List.filterMap_append]
    · refine ⟨w.log ++ submitEffects sid (jsTrim w.inputValue),
        [.consoleError, .appendChild (.message false errorText), .scrollToBottom,
          .setDisabled false, .classListRemove "loading", .focusInput], by simp, ?_, ?_⟩
      · simp [botAppends, submitEffects, List.filterMap_append]
      · simp [botAppends]

theorem completed_submission_transcript_witness :
    ∃ x : String,
      (runToCompletion "sid"
        { (init [.message false "Welcome"]).widget with inputValue := " hi " }
        (.response 200 (.fulfilled (.arr [])))).state.transcript =
        [.message false "Welcome", .message true "hi", .message false x] :=
  (completed_submission_transcript "sid"
    { (init [.message false "Welcome"]).widget with inputValue := " hi " }
    (.response 200 (.fulfilled (.arr []))) (by decide) (by decide)).imp
    (fun _ hx => hx.1)

/-! ## The requests of a page lifetime -/

theorem requests_finallyBlock (w : Widget) : requests (finallyBlock w) = requests w := by
  simp [requests, (finallyBlock_fields w).2.2.2.2.2, List.filterMap_append]

theorem requests_finish (r : Result) : requests (finish r).state = requests r.state := by
  obtain ⟨w, t⟩ := r
  cases t with
  | none => rw [finish_none]; exact requests_finallyBlock w
  | some e =>
    rw [finish_some, requests_finallyBlock]
    have h1 : requests (scrollToBottom (appendChild (.message false errorText)
        (removeLoadingMessage (consoleError w)))) =
        requests (removeLoadingMessage (consoleError w)) := by
      simp [requests, scrollToBottom, appendChild, record, List.filterMap_append]
    rw [h1, removeLoadingMessage_requests]
    simp [requests, consoleError, record, List.filterMap_append]

theorem requests_answerBlock (data : JSValue) (w : Widget) :
    requests (answerBlock data w).state = requests w := by
  rcases answerBlock_cases data w with ⟨x, hx⟩ | ⟨e, he⟩
  · rw [hx]
    have h1 : requests (scrollToBottom (appendChild (.message false x)
        (removeLoadingMessage w))) = requests (removeLoadingMessage w) := by
      simp [requests, scrollToBottom, appendChild, record, List.filterMap_append]
    rw [h1, removeLoadingMessage_requests]
  · rw [he]; exact removeLoadingMessage_requests w

theorem requests_resumeFetch (res : Settled Nat) (w : Widget) :
    requests (resumeFetch res w).state = requests w := by
  cases res with
  | rejected e => exact requests_finish _
  | fulfilled status =>
    by_cases hs : 200 ≤ status ∧ status ≤ 299
    · rw [resumeFetch_ok _ _ hs]
    · rw [resumeFetch_not_ok _ _ hs]; exact requests_finish _

theorem requests_resumeJson (res : Settled JSValue) (w : Widget) :
    requests (resumeJson res w).state = requests w := by
  cases res with
  | rejected e => exact requests_finish _
  | fulfilled data =>
    show requests (finish (answerBlock data w)).state = requests w
    rw [requests_finish, requests_answerBlock]

theorem requests_submitHandler (sid : String) (w : Widget) :
    requests (submitHandler sid w).state =
      requests w ++ (if jsTrim w.inputValue = "" then []
        else [queryRequest sid (jsTrim w.inputValue)]) := by
  by_cases h : jsTrim w.inputValue = ""
  · simp [submitHandler_blank sid w h, h]
  · simp [submitHandler_nonblank sid w h, h, requests, submitEffects, List.filterMap_append]

theorem settle_widget (id : Nat) (r : Run) (s : Sys) : (settle id r s).widget = r.state := by
  unfold settle
  cases r.status <;> rfl

theorem dispatchSubmit_widget (sid : String) (s : Sys) :
    (dispatchSubmit sid s).widget = (submitHandler sid s.widget).state := by
  cases h : (submitHandler sid s.widget).status <;> simp [dispatchSubmit, h]

theorem requests_step (sid : String) (s : Sys) (ev : Event) :
    requests (step sid s ev).widget = requests s.widget ∨
    ∃ q, requests (step sid s ev).widget = requests s.widget ++ [queryRequest sid q] := by
  have hd : requests (dispatchSubmit sid s).widget = requests s.widget ∨
      ∃ q, requests (dispatchSubmit sid s).widget
        = requests s.widget ++ [queryRequest sid q] := by
    rw [dispatchSubmit_widget, requests_submitHandler]
    by_cases h : jsTrim s.widget.inputValue = ""
    · exact Or.inl (by simp [h])
    · exact Or.inr ⟨jsTrim s.widget.inputValue, by simp [h]⟩
  cases ev with
  | load => exact Or.inl (by simp [step, requests, focusInput, record, List.filterMap_append])
  | input v => exact Or.inl rfl
  | click =>
    simp only [step]
    split
    · exact Or.inl rfl
    · exact hd
  | keydown key shiftKey =>
    simp only [step, keydownHandler]
    split
    · exact hd
    · exact Or.inl rfl
  | fetchSettled id res =>
    simp only [step]
    split
    · exact Or.inl (by rw [settle_widget, requests_resumeFetch])
    · exact Or.inl rfl
  | jsonSettled id res =>
    simp only [step]
    split
    · exact Or.inl (by rw [settle_widget, requests_resumeJson])
    · exact Or.inl rfl

theorem requests_run (sid : String) (s : Sys) (evs : List Event)
    (hs : ∀ r ∈ requests s.widget, ∃ q, r = queryRequest sid q) :
    ∀ r ∈ requests (run sid s evs).widget, ∃ q, r = queryRequest sid q := by
  induction evs generalizing s with
  | nil => exact hs
  | cons ev rest ih =>
    show ∀ r ∈ requests (run sid (step sid s ev) rest).widget, ∃ q, r = queryRequest sid q
    apply ih
    rcases requests_step sid s ev with h | ⟨q, h⟩
    · rw [h]; exact hs
    · rw [h]
      intro r hr
      rcases List.mem_append.1 hr with hr | hr
      · exact hs r hr
      · exact ⟨q, by simpa using hr⟩

/-- C9: the session identifier is fixed when the page is loaded, and for
every sequence of events of that page (submissions with any texts, request
outcomes of any kind) every request issued is the `POST /query` request
whose body has the fields `q` and `session_id`, and the value of
`session_id` is that same identifier. -/
theorem session_id_in_every_request (p : Page) (greeting : List Elem) (evs : List Event)
    (r : Request) (hr : r ∈ requests (run (sessionId p) (init greeting) evs).widget) :
    r.body.lookup "session_id" = some (sessionId p) ∧
    ∃ q, r = queryRequest (sessionId p) q := by
  have h0 : ∀ r ∈ requests (init greeting).widget, ∃ q, r = queryRequest (sessionId p) q := by
    intro r hr
    simp [init, requests] at hr
  obtain ⟨q, hq⟩ := requests_run (sessionId p) (init greeting) evs h0 r hr
  refine ⟨?_, q, hq⟩
  rw [hq]
  simp [queryRequest, List.lookup]

theorem session_id_in_every_request_witness :
    queryRequest "session_1700000000000_4fzyo82mv" "second" ∈
      requests (run (sessionId ⟨none, 1700000000000, "0.4fzyo82mvyr"⟩) (init [])
        [.load, .input "first", .click, .fetchSettled 0 (.rejected .networkError),
         .input "second", .keydown "Enter" false, .fetchSettled 1 (.fulfilled 200),
         .jsonSettled 1 (.fulfilled (.obj [("answer", .str "ok")]))]).widget ∧
    (queryRequest "session_1700000000000_4fzyo82mv" "second").body.lookup "session_id"
      = some "session_1700000000000_4fzyo82mv" :=
  ⟨by decide,
   (session_id_in_every_request ⟨none, 1700000000000, "0.4fzyo82mvyr"⟩ []
      [.load, .input "first", .click, .fetchSettled 0 (.rejected .networkError),
       .input "second", .keydown "Enter" false, .fetchSettled 1 (.fulfilled 200),
       .jsonSettled 1 (.fulfilled (.obj [("answer", .str "ok")]))]
      (queryRequest "session_1700000000000_4fzyo82mv" "second") (by decide)).1⟩

/-! ## One request at a time -/

theorem placeholders_resumeFetch (res : Settled Nat) (w : Widget)
    (h : (resumeFetch res w).status = .returned) :
    placeholders (resumeFetch res w).state = placeholders w - 1 := by
  cases res with
  | rejected e => exact placeholders_finish_some w e
  | fulfilled status =>
    by_cases hs : 200 ≤ status ∧ status ≤ 299
    · rw [resumeFetch_ok _ _ hs] at h; cases h
    · rw [resumeFetch_not_ok _ _ hs]; exact placeholders_finish_some w _

theorem resumeFetch_awaiting (res : Settled Nat) (w : Widget) (a : Await)
    (h : (resumeFetch res w).status = .awaiting a) :
    a = .json ∧ (resumeFetch res w).state = w := by
  cases res with
  | rejected e =>
    have := finish_returned ⟨w, some e⟩
    simp only [resumeFetch] at h
    rw [this] at h; cases h
  | fulfilled status =>
    by_cases hs : 200 ≤ status ∧ status ≤ 299
    · rw [resumeFetch_ok _ _ hs] at h ⊢
      cases h
      exact ⟨rfl, rfl⟩
    · rw [resumeFetch_not_ok _ _ hs] at h
      rw [finish_returned] at h; cases h

theorem placeholders_resumeJson (res : Settled JSValue) (w : Widget)
    (h : placeholders w ≤ 1) : placeholders (resumeJson res w).state = 0 := by
  cases res with
  | rejected e =>
    show placeholders (finish ⟨w, some e⟩).state = 0
    rw [placeholders_finish_some]; omega
  | fulfilled data =>
    show placeholders (finish (answerBlock data w)).state = 0
    rcases answerBlock_cases data w with ⟨x, hx⟩ | ⟨e, he⟩
    · rw [hx, placeholders_finish_none]
      have h1 := placeholders_removeLoadingMessage w
      simp only [placeholders] at h1 h ⊢
      simp [scrollToBottom, appendChild, record, List.count_append, h1]
      omega
    · rw [he, placeholders_finish_some, placeholders_removeLoadingMessage]; omega

theorem dispatchSubmit_blank (sid : String) (s : Sys) (h : jsTrim s.widget.inputValue = "") :
    dispatchSubmit sid s = s := by
  simp [dispatchSubmit, submitHandler_blank sid s.widget h]

theorem dispatchSubmit_nonblank (sid : String) (s : Sys)
    (h : jsTrim s.widget.inputValue ≠ "") :
    dispatchSubmit sid s =
      { s with widget := (submitHandler sid s.widget).state,
               tasks := s.tasks ++ [⟨(requests s.widget).length, .fetch⟩] } := by
  simp [dispatchSubmit, submitHandler_nonblank sid s.widget h]

theorem exclusive_dispatchSubmit (sid : String) (s : Sys) (hI : Exclusive s)
    (hd : s.widget.disabled = false) : Exclusive (dispatchSubmit sid s) := by
  by_cases h : jsTrim s.widget.inputValue = ""
  · rw [dispatchSubmit_blank sid s h]; exact hI
  · obtain ⟨_, h2, h3⟩ := hI
    have ht : s.tasks = [] := by
      by_contra hne
      have := h2.2 hne
      rw [hd] at this; cases this
    rw [dispatchSubmit_nonblank sid s h]
    refine ⟨by simp [ht], ?_, ?_⟩
    · simp [submitHandler_nonblank sid s.widget h]
    · have hp : placeholders s.widget = 0 := by rw [h3, ht]; rfl
      simp only [placeholders] at hp ⊢
      simp [submitHandler_nonblank sid s.widget h, ht, List.count_append, hp]

theorem tasks_eq_singleton (s : Sys) (t : Task) (hI : Exclusive s) (ht : t ∈ s.tasks) :
    s.tasks = [t] := by
  obtain ⟨h1, _, _⟩ := hI
  match hs : s.tasks with
  | [] => rw [hs] at ht; cases ht
  | [u] => rw [hs] at ht; simp at ht; rw [ht]
  | u :: v :: rest => rw [hs] at h1; simp at h1

theorem exclusive_settle_done (s : Sys) (t : Task) (r : Run) (hI : Exclusive s)
    (ht : t ∈ s.tasks) (hr : r.status = .returned) (hd : r.state.disabled = false)
    (hp : placeholders r.state = 0) : Exclusive (settle t.id r s) := by
  have hs := tasks_eq_singleton s t hI ht
  simp [Exclusive, settle, hr, hs, hd, hp]

theorem exclusive_settle_awaiting (s : Sys) (t : Task) (r : Run) (a : Await)
    (hI : Exclusive s) (ht : t ∈ s.tasks) (hr : r.status = .awaiting a)
    (hw : r.state = s.widget) : Exclusive (settle t.id r s) := by
  have hs := tasks_eq_singleton s t hI ht
  obtain ⟨_, h2, h3⟩ := hI
  rw [hs] at h2 h3
  have hdis : s.widget.disabled = true := h2.2 (by simp)
  simp [Exclusive, settle, hr, hs, hw, hdis, h3]

theorem exclusive_step (sid : String) (s : Sys) (ev : Event) (hI : Exclusive s)
    (hg : isEnterKey ev = true → s.widget.disabled = false) : Exclusive (step sid s ev) := by
  cases ev with
  | load => exact hI
  | input v => exact hI
  | click =>
    simp only [step]
    split
    · exact hI
    · rename_i hd
      exact exclusive_dispatchSubmit sid s hI (by simpa using hd)
  | keydown key shiftKey =>
    simp only [step, keydownHandler]
    split
    · rename_i hk
      apply exclusive_dispatchSubmit sid s hI
      apply hg
      simp [isEnterKey, hk.1, hk.2]
    · exact hI
  | fetchSettled id res =>
    simp only [step]
    split
    · rename_i ht
      have hp1 : placeholders s.widget = 1 := by
        rw [hI.2.2, tasks_eq_singleton s _ hI ht]; rfl
      rcases resumeFetch_status res s.widget with h | h
      · apply exclusive_settle_done s ⟨id, .fetch⟩ _ hI ht h
        · rcases hres : res with _ | e
          · rename_i status
            by_cases hs : 200 ≤ status ∧ status ≤ 299
            · rw [hres, resumeFetch_ok _ _ hs] at h; cases h
            · rw [resumeFetch_not_ok _ _ hs]; exact (finish_idle _).1
          · exact (finish_idle _).1
        · rw [placeholders_resumeFetch res s.widget h, hp1]
      · exact exclusive_settle_awaiting s ⟨id, .fetch⟩ _ _ hI ht h
          (resumeFetch_awaiting res s.widget _ h).2
    · exact hI
  | jsonSettled id res =>
    simp only [step]
    split
    · rename_i ht
      have hp1 : placeholders s.widget = 1 := by
        rw [hI.2.2, tasks_eq_singleton s _ hI ht]; rfl
      apply exclusive_settle_done s ⟨id, .json⟩ _ hI ht (resumeJson_status res s.widget)
      · cases res with
        | rejected e => exact (finish_idle _).1
        | fulfilled data => exact (finish_idle _).1
      · exact placeholders_resumeJson res s.widget (by omega)
    · exact hI

/-- As long as Enter is pressed only while the button is enabled (every other
submission comes through the button, which the browser guards), the page
keeps the discipline: at most one request is in flight, the button is
disabled exactly while one is, and the transcript holds exactly one
placeholder while one is and none otherwise. -/
theorem exclusive_when_enter_is_guarded (sid : String) (greeting : List Elem)
    (evs : List Event) (hg : Elem.loading ∉ greeting)
    (he : enterOnlyWhenEnabled sid (init greeting) evs = true) :
    Exclusive (run sid (init greeting) evs) := by
  have h0 : Exclusive (init greeting) := by
    simp [Exclusive, init, placeholders, List.count_eq_zero, hg]
  have gen : ∀ (evs : List Event) (s : Sys), Exclusive s →
      enterOnlyWhenEnabled sid s evs = true → Exclusive (run sid s evs) := by
    intro evs
    induction evs with
    | nil => intro s hs _; exact hs
    | cons ev rest ih =>
      intro s hs hen
      simp only [enterOnlyWhenEnabled, Bool.and_eq_true, Bool.or_eq_true,
        Bool.not_eq_eq_eq_not, Bool.not_true] at hen
      refine ih (step sid s ev) (exclusive_step sid s ev hs ?_) hen.2
      intro hk
      rcases hen.1 with h1 | h1
      · rw [hk] at h1; cases h1
      · exact h1
  exact gen evs (init greeting) h0 he

theorem exclusive_when_enter_is_guarded_example :
    enterOnlyWhenEnabled "sid" (init [])
      [.input "hi", .keydown "Enter" false, .click, .fetchSettled 0 (.fulfilled 200),
       .jsonSettled 0 (.fulfilled .null), .input "again", .click] = true ∧
    Exclusive (run "sid" (init [])
      [.input "hi", .keydown "Enter" false, .click, .fetchSettled 0 (.fulfilled 200),
       .jsonSettled 0 (.fulfilled .null), .input "again", .click]) :=
  ⟨by decide,
   exclusive_when_enter_is_guarded "sid" []
     [.input "hi", .keydown "Enter" false, .click, .fetchSettled 0 (.fulfilled 200),
      .jsonSettled 0 (.fulfilled .null), .input "again", .click] (by decide) (by decide)⟩

/-- C7 fails on the code: with a request in flight and the button disabled, a
click does nothing, but typing a text and pressing Enter runs the listener
again, so that two requests are in flight and the transcript holds two
placeholders; and when the first of them then gets the body `null`, both
placeholders are removed while the second request is still in flight. -/
theorem enter_while_disabled_starts_second_request :
    (run "sid" (init []) [.input "hi", .keydown "Enter" false, .input "again"]
      ).widget.disabled = true ∧
    (run "sid" (init []) [.input "hi", .keydown "Enter" false, .input "again"]).tasks
      = [⟨0, .fetch⟩] ∧
    placeholders (run "sid" (init []) [.input "hi", .keydown "Enter" false, .input "again"]
      ).widget = 1 ∧
    run "sid" (init []) [.input "hi", .keydown "Enter" false, .input "again", .click]
      = run "sid" (init []) [.input "hi", .keydown "Enter" false, .input "again"] ∧
    (run "sid" (init [])
      [.input "hi", .keydown "Enter" false, .input "again", .keydown "Enter" false]).tasks
      = [⟨0, .fetch⟩, ⟨1, .fetch⟩] ∧
    (run "sid" (init [])
      [.input "hi", .keydown "Enter" false, .input "again", .keydown "Enter" false]
      ).widget.transcript
      = [.message true "hi", .loading, .message true "again", .loading] ∧
    requests (run "sid" (init [])
      [.input "hi", .keydown "Enter" false, .input "again", .keydown "Enter" false]).widget
      = [queryRequest "sid" "hi", queryRequest "sid" "again"] ∧
    (run "sid" (init []) [.input "hi", .keydown "Enter" false, .input "again",
      .keydown "Enter" false, .fetchSettled 0 (.fulfilled 200),
      .jsonSettled 0 (.fulfilled .null)]).tasks = [⟨1, .fetch⟩] ∧
    placeholders (run "sid" (init []) [.input "hi", .keydown "Enter" false, .input "again",
      .keydown "Enter" false, .fetchSettled 0 (.fulfilled 200),
      .jsonSettled 0 (.fulfilled .null)]).widget = 0 := by
  refine ⟨by decide, by decide, by decide, by decide, by decide, by decide, by decide,
    by decide, by decide⟩

/-- C8 fails on the code: after a second submission through the Enter key
while the first request is in flight, the end of the first request enables
the button although the second request has not ended. -/
theorem button_enabled_while_request_in_flight :
    (run "sid" (init []) [.input "hi", .keydown "Enter" false, .input "again",
      .keydown "Enter" false]).widget.disabled = true ∧
    (run "sid" (init []) [.input "hi", .keydown "Enter" false, .input "again",
      .keydown "Enter" false, .fetchSettled 0 (.rejected .networkError)]
      ).widget.disabled = false ∧
    (run "sid" (init []) [.input "hi", .keydown "Enter" false, .input "again",
      .keydown "Enter" false, .fetchSettled 0 (.rejected .networkError)]).tasks
      = [⟨1, .fetch⟩] ∧
    (run "sid" (init []) [.input "hi", .keydown "Enter" false, .input "again",
      .keydown "Enter" false, .fetchSettled 0 (.rejected .networkError)]
      ).widget.transcript
      = [.message true "hi", .message true "again", .loading, .message false errorText] := by
  refine ⟨by decide, by decide, by decide, by decide⟩

end ChatWidget
